import Mathlib

/-!
Verification development for the HCA (High-Compression Audio) decoder library.

The library exists in the repository in two generations:
* the operative boolean-result core (`hca.go`, `decoder.go`, `wave_gen.go`,
  the endibuf-based `loadHeader`, and the files here called `part_002`/`part_003`),
  which is the code path reached from `example/main.go` and `decoder.go`
  (`DecodeFromFile` returning `bool`), and
* an error-returning rewrite (`part_000`/`part_001` and the `io.Reader`-based
  half of `hca_header.go`).

Machine integers are modelled as `Nat` with explicit reductions modulo `2^16`
or `2^32` where Go's `uint16`/`uint32` arithmetic can overflow; Go `int`
fields (`Mode`, `Loop`) are modelled as `Int`.  Byte streams are `List Nat`
with every element a byte value.  Each definition's doc comment names the
source function it embeds.
-/

namespace HcaSpec

/-- `2^32`, the modulus of Go `uint32` arithmetic. -/
def U32 : Nat := 4294967296

/-- Reduction into Go `uint16` range. -/
def u16 (n : Nat) : Nat := n % 65536

/-- Reduction into Go `uint32` range. -/
def u32 (n : Nat) : Nat := n % U32

/-- Go `uint32` subtraction `a - b` (wraparound). -/
def u32sub (a b : Nat) : Nat := (u32 a + U32 - u32 b) % U32

/-- Go conversion `uint16(i)` of an `int` value (two's-complement truncation). -/
def u16ofInt (i : Int) : Nat := (i % 65536).toNat

/-- Go conversion `uint32(i)` of an `int` value (two's-complement truncation). -/
def u32ofInt (i : Int) : Nat := (i % 4294967296).toNat

/-- The 256-entry CRC-16 lookup table `v` used by `checkSum`
(identical in `part_001`, `part_002` and `part_003`). -/
def crcTable : List Nat := [
  0x0000, 0x8005, 0x800F, 0x000A, 0x801B, 0x001E, 0x0014, 0x8011, 0x8033, 0x0036, 0x003C, 0x8039, 0x0028, 0x802D, 0x8027, 0x0022,
  0x8063, 0x0066, 0x006C, 0x8069, 0x0078, 0x807D, 0x8077, 0x0072, 0x0050, 0x8055, 0x805F, 0x005A, 0x804B, 0x004E, 0x0044, 0x8041,
  0x80C3, 0x00C6, 0x00CC, 0x80C9, 0x00D8, 0x80DD, 0x80D7, 0x00D2, 0x00F0, 0x80F5, 0x80FF, 0x00FA, 0x80EB, 0x00EE, 0x00E4, 0x80E1,
  0x00A0, 0x80A5, 0x80AF, 0x00AA, 0x80BB, 0x00BE, 0x00B4, 0x80B1, 0x8093, 0x0096, 0x009C, 0x8099, 0x0088, 0x808D, 0x8087, 0x0082,
  0x8183, 0x0186, 0x018C, 0x8189, 0x0198, 0x819D, 0x8197, 0x0192, 0x01B0, 0x81B5, 0x81BF, 0x01BA, 0x81AB, 0x01AE, 0x01A4, 0x81A1,
  0x01E0, 0x81E5, 0x81EF, 0x01EA, 0x81FB, 0x01FE, 0x01F4, 0x81F1, 0x81D3, 0x01D6, 0x01DC, 0x81D9, 0x01C8, 0x81CD, 0x81C7, 0x01C2,
  0x0140, 0x8145, 0x814F, 0x014A, 0x815B, 0x015E, 0x0154, 0x8151, 0x8173, 0x0176, 0x017C, 0x8179, 0x0168, 0x816D, 0x8167, 0x0162,
  0x8123, 0x0126, 0x012C, 0x8129, 0x0138, 0x813D, 0x8137, 0x0132, 0x0110, 0x8115, 0x811F, 0x011A, 0x810B, 0x010E, 0x0104, 0x8101,
  0x8303, 0x0306, 0x030C, 0x8309, 0x0318, 0x831D, 0x8317, 0x0312, 0x0330, 0x8335, 0x833F, 0x033A, 0x832B, 0x032E, 0x0324, 0x8321,
  0x0360, 0x8365, 0x836F, 0x036A, 0x837B, 0x037E, 0x0374, 0x8371, 0x8353, 0x0356, 0x035C, 0x8359, 0x0348, 0x834D, 0x8347, 0x0342,
  0x03C0, 0x83C5, 0x83CF, 0x03CA, 0x83DB, 0x03DE, 0x03D4, 0x83D1, 0x83F3, 0x03F6, 0x03FC, 0x83F9, 0x03E8, 0x83ED, 0x83E7, 0x03E2,
  0x83A3, 0x03A6, 0x03AC, 0x83A9, 0x03B8, 0x83BD, 0x83B7, 0x03B2, 0x0390, 0x8395, 0x839F, 0x039A, 0x838B, 0x038E, 0x0384, 0x8381,
  0x0280, 0x8285, 0x828F, 0x028A, 0x829B, 0x029E, 0x0294, 0x8291, 0x82B3, 0x02B6, 0x02BC, 0x82B9, 0x02A8, 0x82AD, 0x82A7, 0x02A2,
  0x82E3, 0x02E6, 0x02EC, 0x82E9, 0x02F8, 0x82FD, 0x82F7, 0x02F2, 0x02D0, 0x82D5, 0x82DF, 0x02DA, 0x82CB, 0x02CE, 0x02C4, 0x82C1,
  0x8243, 0x0246, 0x024C, 0x8249, 0x0258, 0x825D, 0x8257, 0x0252, 0x0270, 0x8275, 0x827F, 0x027A, 0x826B, 0x026E, 0x0264, 0x8261,
  0x0220, 0x8225, 0x822F, 0x022A, 0x823B, 0x023E, 0x0234, 0x8231, 0x8213, 0x0216, 0x021C, 0x8219, 0x0208, 0x820D, 0x8207, 0x0202]

/-- One step of the CRC loop body
`res = (res << 8) ^ v[byte(res>>8)^data[i]]` on `uint16` state `res`
and byte `b`. -/
def checkSumStep (res b : Nat) : Nat :=
  u16 (res <<< 8) ^^^ crcTable.getD ((res >>> 8) % 256 ^^^ b % 256) 0

/-- `checkSum(data, sum)` from `part_003` (identical in `part_001`/`part_002`):
CRC-16 with table `crcTable`, seed `sum`, folded over the bytes of `data`. -/
def checkSum (data : List Nat) (sum : Nat) : Nat :=
  data.foldl checkSumStep sum

/-- Modelled from the spec: the bit reader `clData` (not under `src/`) is
initialised with the cipher-masked block truncated to `blockSize` bytes, and
`GetBit(16)` returns the first 16 bits MSB-first, with bits beyond the buffer
end reading as zero. -/
def clDataGetBit16 (buf : List Nat) : Nat :=
  buf.getD 0 0 % 256 * 256 + buf.getD 1 0 % 256

/-- Result of decoding one block: `ok` is the boolean the Go `decode`
returns, `pipelineRun` records whether `h.decoder.decode` (the channel
pipeline) was invoked for this block. -/
structure DecodeResult where
  ok : Bool
  pipelineRun : Bool
deriving DecidableEq, Repr

/-- `(h *Hca) decode(data)` from `part_003` lines 214-231 (identical in
`part_002`), the operative boolean variant called by `decodeBlocks` /
`decodeFromBytesDecode`: reject a short block, reject a block whose CRC with
seed 0 is nonzero, then apply the cipher mask pointwise (Modelled from the
spec: `Cipher.Mask` applies a 256-entry byte substitution table; the `Cipher`
type itself is not under `src/`, so the table is a parameter `cipherTbl`),
read the first 16 bits, and run the channel pipeline only when they equal
`0xFFFF`; the function returns `true` whenever CRC and length checks pass. -/
def decode (blockSize : Nat) (cipherTbl : Nat → Nat) (data : List Nat) : DecodeResult :=
  if data.length < blockSize then ⟨false, false⟩
  else if checkSum data 0 ≠ 0 then ⟨false, false⟩
  else
    let mask := (data.map cipherTbl).take blockSize
    let magic := clDataGetBit16 mask
    ⟨true, magic = 0xFFFF⟩

/-- The decoder state `Hca` from `hca.go` / `part_000`.  Caller options
`Mode` and `Loop` are Go `int` and modelled as `Int`; all header fields are
`uint32` values modelled as `Nat`.  The float32 fields `Volume` and
`rvaVolume` are outside the integer model (no claim depends on their
values); for `rvaVolume` only the raw big-endian bit pattern read by
`rvaHeaderRead` is kept.  The runtime components `ath`, `cipher`, `decoder`
and the buffer pools hold no parsed data and are omitted. -/
structure Hca where
  CiphKey1 : Nat := 0
  CiphKey2 : Nat := 0
  Mode : Int := 0
  Loop : Int := 0
  version : Nat := 0
  dataOffset : Nat := 0
  channelCount : Nat := 0
  samplingRate : Nat := 0
  blockCount : Nat := 0
  fmtR01 : Nat := 0
  fmtR02 : Nat := 0
  blockSize : Nat := 0
  compR01 : Nat := 0
  compR02 : Nat := 0
  compR03 : Nat := 0
  compR04 : Nat := 0
  compR05 : Nat := 0
  compR06 : Nat := 0
  compR07 : Nat := 0
  compR08 : Nat := 0
  compR09 : Nat := 0
  vbrR01 : Nat := 0
  vbrR02 : Nat := 0
  athType : Nat := 0
  loopStart : Nat := 0
  loopEnd : Nat := 0
  loopR01 : Nat := 0
  loopR02 : Nat := 0
  loopFlg : Bool := false
  ciphType : Nat := 0
  rvaVolumeBits : Nat := 0
  commLen : Nat := 0
  commComment : List Nat := []
deriving DecidableEq, Repr

/-- `NewDecoder()` from `hca.go` / `part_000`: default keys, 16-bit mode,
no forced loop (remaining fields are Go zero values). -/
def NewDecoder : Hca :=
  { CiphKey1 := 0x30DBE1AB, CiphKey2 := 0xCC554639, Mode := 16, Loop := 0 }

/-! ### Header parsing

Embedding of the `io.Reader`-based header parser (`hca_header.go` lines
10-283, textually identical inside `part_001`).  The byte source is a
`List Nat` consumed from the front; `binary.Read` of a big-endian field
fails (returns a non-`EOF` error) when fewer bytes than requested remain,
except that reading a chunk signature at a cleanly exhausted stream yields
`io.EOF`, which `loadHeader` tolerates by keeping the previous signature
value. -/

/-- Chunk signature comparison mask (`sigMask` in `hca_header.go`). -/
def sigMask : Nat := 0x7F7F7F7F

/-- `sigHCA` from `hca_header.go`. -/
def sigHCA : Nat := 0x48434100

/-- `sigFMT` from `hca_header.go`. -/
def sigFMT : Nat := 0x666D7400

/-- `sigCOMP` from `hca_header.go`. -/
def sigCOMP : Nat := 0x636F6D70

/-- `sigDEC` from `hca_header.go`. -/
def sigDEC : Nat := 0x64656300

/-- `sigVBR` from `hca_header.go`. -/
def sigVBR : Nat := 0x76627200

/-- `sigATH` from `hca_header.go`. -/
def sigATH : Nat := 0x61746800

/-- `sigLOOP` from `hca_header.go`. -/
def sigLOOP : Nat := 0x6C6F6F70

/-- `sigCIPH` from `hca_header.go`. -/
def sigCIPH : Nat := 0x63697068

/-- `sigRVA` from `hca_header.go`. -/
def sigRVA : Nat := 0x72766100

/-- `sigCOMM` from `hca_header.go`. -/
def sigCOMM : Nat := 0x636F6D6D

/-- Read one byte (`binary.Read` of a `byte`). -/
def readU8 : List Nat → Option (Nat × List Nat)
  | [] => none
  | b :: rest => some (b % 256, rest)

/-- Read a big-endian `uint16` (`binary.Read`, big-endian). -/
def readU16 : List Nat → Option (Nat × List Nat)
  | b0 :: b1 :: rest => some (b0 % 256 * 256 + b1 % 256, rest)
  | _ => none

/-- Read a big-endian `uint32` (`binary.Read`, big-endian). -/
def readU32 : List Nat → Option (Nat × List Nat)
  | b0 :: b1 :: b2 :: b3 :: rest =>
      some (((b0 % 256 * 256 + b1 % 256) * 256 + b2 % 256) * 256 + b3 % 256, rest)
  | _ => none

/-- `io.ReadFull` of `n` bytes. -/
def readBytes (n : Nat) (s : List Nat) : Option (List Nat × List Nat) :=
  if s.length < n then none else some (s.take n, s.drop n)

/-- Reading the next chunk signature after an optional chunk:
`readData(r, &sig)` tolerating `io.EOF` (`err != nil && err != io.EOF`).
At a cleanly exhausted stream the signature variable keeps its previous
value `old`; a 1-3 byte remainder is `ErrUnexpectedEOF` and fails. -/
def readSigOrEOF (s : List Nat) (old : Nat) : Option (Nat × List Nat) :=
  match s with
  | [] => some (old, [])
  | _ => readU32 s

/-- `hcaHeaderRead` from `hca_header.go` lines 157-164: version and
dataOffset, both `uint16` zero-extended. -/
def hcaHeaderRead (s : List Nat) (h : Hca) : Option (Hca × List Nat) :=
  match readU16 s with
  | none => none
  | some (version, s1) =>
    match readU16 s1 with
    | none => none
    | some (dataOffset, s2) =>
      some ({ h with version := version, dataOffset := dataOffset }, s2)

/-- `fmtHeaderRead` from `hca_header.go` lines 166-180: packed
channelCount/samplingRate word, blockCount, two `uint16` raw fields, and
the range validations on channelCount and samplingRate. -/
def fmtHeaderRead (s : List Nat) (h : Hca) : Option (Hca × List Nat) :=
  match readU32 s with
  | none => none
  | some (raw, s1) =>
    match readU32 s1 with
    | none => none
    | some (blockCount, s2) =>
      match readU16 s2 with
      | none => none
      | some (r01, s3) =>
        match readU16 s3 with
        | none => none
        | some (r02, s4) =>
          let h1 := { h with
            channelCount := (raw &&& 0xFF000000) >>> 24,
            samplingRate := raw &&& 0x00FFFFFF,
            blockCount := blockCount, fmtR01 := r01, fmtR02 := r02 }
          if ¬ (1 ≤ h1.channelCount ∧ h1.channelCount ≤ 16) then none
          else if ¬ (1 ≤ h1.samplingRate ∧ h1.samplingRate ≤ 0x7FFFFF) then none
          else some (h1, s4)

/-- `compHeaderRead` from `hca_header.go` lines 182-197: blockSize then a
10-byte buffer giving `r1..r8`, with the blockSize and `r1 ≤ r2 ≤ 0x1F`
validations. -/
def compHeaderRead (s : List Nat) (h : Hca) : Option (Hca × List Nat) :=
  match readU16 s with
  | none => none
  | some (blockSize, s1) =>
    match readBytes 10 s1 with
    | none => none
    | some (buf, s2) =>
      let h1 := { h with
        blockSize := blockSize,
        compR01 := buf.getD 0 0, compR02 := buf.getD 1 0,
        compR03 := buf.getD 2 0, compR04 := buf.getD 3 0,
        compR05 := buf.getD 4 0, compR06 := buf.getD 5 0,
        compR07 := buf.getD 6 0, compR08 := buf.getD 7 0 }
      if ¬ ((8 ≤ h1.blockSize ∧ h1.blockSize ≤ 0xFFFF) ∨ h1.blockSize = 0) then none
      else if ¬ (h1.compR01 ≤ h1.compR02 ∧ h1.compR02 ≤ 0x1F) then none
      else some (h1, s2)

/-- `decHeaderRead` from `hca_header.go` lines 199-221: blockSize then a
6-byte buffer `b[0..5]`; `r1 = b[0]`, `r2 = b[1]`, `r3 = b[4] & 0xF`,
`r4 = b[4] >> 4`, `r5 = b[2]+1`, `r6 = b[2]+1` overwritten to `b[3]+1` when
`b[5] > 0`, `r7 = r5 - r6` (uint32), `r8 = 0`; then the source's
`if h.compR03 == 0 { h.compR03 = 1 }` default, and the same blockSize and
`r1 ≤ r2 ≤ 0x1F` validations as `compHeaderRead`. -/
def decHeaderRead (s : List Nat) (h : Hca) : Option (Hca × List Nat) :=
  match readU16 s with
  | none => none
  | some (blockSize, s1) =>
    match readBytes 6 s1 with
    | none => none
    | some (buf, s2) =>
      let r03 := buf.getD 4 0 &&& 0xF
      let r05 := buf.getD 2 0 + 1
      let r06 := if 0 < buf.getD 5 0 then buf.getD 3 0 + 1 else buf.getD 2 0 + 1
      let h1 := { h with
        blockSize := blockSize,
        compR01 := buf.getD 0 0, compR02 := buf.getD 1 0,
        compR03 := if r03 = 0 then 1 else r03,
        compR04 := buf.getD 4 0 >>> 4,
        compR05 := r05, compR06 := r06,
        compR07 := u32sub r05 r06, compR08 := 0 }
      if ¬ ((8 ≤ h1.blockSize ∧ h1.blockSize ≤ 0xFFFF) ∨ h1.blockSize = 0) then none
      else if ¬ (h1.compR01 ≤ h1.compR02 ∧ h1.compR02 ≤ 0x1F) then none
      else some (h1, s2)

/-- `vbrHeaderRead` from `hca_header.go` lines 223-229. -/
def vbrHeaderRead (s : List Nat) (h : Hca) : Option (Hca × List Nat) :=
  match readU16 s with
  | none => none
  | some (r01, s1) =>
    match readU16 s1 with
    | none => none
    | some (r02, s2) => some ({ h with vbrR01 := r01, vbrR02 := r02 }, s2)

/-- `athHeaderRead` from `hca_header.go` lines 231-236. -/
def athHeaderRead (s : List Nat) (h : Hca) : Option (Hca × List Nat) :=
  match readU16 s with
  | none => none
  | some (athType, s1) => some ({ h with athType := athType }, s1)

/-- `loopHeaderRead` from `hca_header.go` lines 238-248: loopStart, loopEnd,
two `uint16` raw fields, sets the loop flag, and validates
`loopStart ≤ loopEnd < blockCount`. -/
def loopHeaderRead (s : List Nat) (h : Hca) : Option (Hca × List Nat) :=
  match readU32 s with
  | none => none
  | some (loopStart, s1) =>
    match readU32 s1 with
    | none => none
    | some (loopEnd, s2) =>
      match readU16 s2 with
      | none => none
      | some (r01, s3) =>
        match readU16 s3 with
        | none => none
        | some (r02, s4) =>
          let h1 := { h with loopStart := loopStart, loopEnd := loopEnd,
                             loopR01 := r01, loopR02 := r02, loopFlg := true }
          if ¬ (h1.loopStart ≤ h1.loopEnd ∧ h1.loopEnd < h1.blockCount) then none
          else some (h1, s4)

/-- `ciphHeaderRead` from `hca_header.go` lines 250-256: cipher type with
the `{0, 1, 0x38}` validation. -/
def ciphHeaderRead (s : List Nat) (h : Hca) : Option (Hca × List Nat) :=
  match readU16 s with
  | none => none
  | some (ciphType, s1) =>
    if ¬ (ciphType = 0 ∨ ciphType = 1 ∨ ciphType = 0x38) then none
    else some ({ h with ciphType := ciphType }, s1)

/-- `rvaHeaderRead` from `hca_header.go` lines 258-260: reads the
big-endian float32 volume; only its raw bit pattern is modelled. -/
def rvaHeaderRead (s : List Nat) (h : Hca) : Option (Hca × List Nat) :=
  match readU32 s with
  | none => none
  | some (bits, s1) => some ({ h with rvaVolumeBits := bits }, s1)

/-- `commHeaderRead` from `hca_header.go` lines 262-276: a length byte,
that many comment bytes, and a padding byte consumed when `commLen + 1` is
odd (its read error is ignored in the source). -/
def commHeaderRead (s : List Nat) (h : Hca) : Option (Hca × List Nat) :=
  match readU8 s with
  | none => none
  | some (commLen, s1) =>
    match readBytes commLen s1 with
    | none => none
    | some (buf, s2) =>
      let h1 := { h with commLen := commLen, commComment := buf }
      if (commLen + 1) % 2 ≠ 0 then
        match readU8 s2 with
        | none => some (h1, s2)
        | some (_, s3) => some (h1, s3)
      else some (h1, s2)

/-- The `vbr` stage of `loadHeader` (`hca_header.go` lines 72-81): consume
the chunk and re-read the signature when it matches, otherwise default
`vbrR01 = vbrR02 = 0` and pass the signature through. -/
def vbrPhase (sig : Nat) (s : List Nat) (h : Hca) : Option (Nat × List Nat × Hca) :=
  if sig &&& sigMask = sigVBR then
    match vbrHeaderRead s h with
    | none => none
    | some (h1, s1) =>
      match readSigOrEOF s1 sig with
      | none => none
      | some (sig1, s2) => some (sig1, s2, h1)
  else some (sig, s, { h with vbrR01 := 0, vbrR02 := 0 })

/-- The `ath` stage of `loadHeader` (`hca_header.go` lines 83-95): consume
the chunk when the signature matches; otherwise default the ATH type to 1,
overridden to 0 when `version >= 0x200` (the source assigns 1 and then
conditionally 0). -/
def athPhase (sig : Nat) (s : List Nat) (h : Hca) : Option (Nat × List Nat × Hca) :=
  if sig &&& sigMask = sigATH then
    match athHeaderRead s h with
    | none => none
    | some (h1, s1) =>
      match readSigOrEOF s1 sig with
      | none => none
      | some (sig1, s2) => some (sig1, s2, h1)
  else some (sig, s, { h with athType := if 0x200 ≤ h.version then 0 else 1 })

/-- The `loop` stage of `loadHeader` (`hca_header.go` lines 97-106):
consume the chunk when the signature matches, otherwise `loopFlg = false`. -/
def loopPhase (sig : Nat) (s : List Nat) (h : Hca) : Option (Nat × List Nat × Hca) :=
  if sig &&& sigMask = sigLOOP then
    match loopHeaderRead s h with
    | none => none
    | some (h1, s1) =>
      match readSigOrEOF s1 sig with
      | none => none
      | some (sig1, s2) => some (sig1, s2, h1)
  else some (sig, s, { h with loopFlg := false })

/-- The `ciph` stage of `loadHeader` (`hca_header.go` lines 108-117):
consume the chunk when the signature matches, otherwise `ciphType = 0`. -/
def ciphPhase (sig : Nat) (s : List Nat) (h : Hca) : Option (Nat × List Nat × Hca) :=
  if sig &&& sigMask = sigCIPH then
    match ciphHeaderRead s h with
    | none => none
    | some (h1, s1) =>
      match readSigOrEOF s1 sig with
      | none => none
      | some (sig1, s2) => some (sig1, s2, h1)
  else some (sig, s, { h with ciphType := 0 })

/-- The `rva` stage of `loadHeader` (`hca_header.go` lines 119-128):
consume the chunk when the signature matches, otherwise default the RVA
volume to `1.0` (bit pattern `0x3F800000`). -/
def rvaPhase (sig : Nat) (s : List Nat) (h : Hca) : Option (Nat × List Nat × Hca) :=
  if sig &&& sigMask = sigRVA then
    match rvaHeaderRead s h with
    | none => none
    | some (h1, s1) =>
      match readSigOrEOF s1 sig with
      | none => none
      | some (sig1, s2) => some (sig1, s2, h1)
  else some (sig, s, { h with rvaVolumeBits := 0x3F800000 })

/-- The `comm` stage of `loadHeader` (`hca_header.go` lines 130-137):
consume the chunk when the signature matches, otherwise default to an empty
comment.  No further signature is read. -/
def commPhase (sig : Nat) (s : List Nat) (h : Hca) : Option Hca :=
  if sig &&& sigMask = sigCOMM then
    match commHeaderRead s h with
    | none => none
    | some (h1, _) => some h1
  else some { h with commLen := 0, commComment := [] }

/-- Modelled from the spec: `stATH.Init` (not under `src/`) succeeds exactly
for ATH types 0 and 1 (type 0: all-zero table; type 1: the 656-entry curve). -/
def athInitOk (t : Nat) : Bool := t = 0 || t = 1

/-- Modelled from the spec: `Cipher.Init` (not under `src/`) fails if the
cipher type is not one of 0, 1, 0x38. -/
def ciphInitOk (t : Nat) : Bool := t = 0 || t = 1 || t = 0x38

/-- `ceil2(a, b)` from `hca_header.go` lines 278-283: `0` when `b == 0`,
otherwise `a/b` rounded up. -/
def ceil2 (a b : Nat) : Nat :=
  if b = 0 then 0
  else if a % b ≠ 0 then a / b + 1 else a / b

/-- The compression-parameter finalisation at the end of `loadHeader`
(`hca_header.go` lines 146-151): default `compR03` to 1 when zero, then if
not (`compR01 == 1 && compR02 == 15`) compute
`compR09 = ceil2(compR05-(compR06+compR07), compR08)` in `uint32`
arithmetic. -/
def finalizeComp (h : Hca) : Hca :=
  let h1 := if h.compR03 = 0 then { h with compR03 := 1 } else h
  if ¬ (h1.compR01 = 1 ∧ h1.compR02 = 15) then
    { h1 with compR09 := ceil2 (u32sub h1.compR05 (u32 (h1.compR06 + h1.compR07))) h1.compR08 }
  else h1

/-- `loadHeader` from `hca_header.go` lines 28-155 (the `io.Reader`-based
variant, textually identical inside `part_001`): mandatory `HCA`, `fmt` and
`comp`-or-`dec` chunks, the six optional stages, then ATH and cipher
initialisation and `finalizeComp`.  The channel-decoder construction
(`newChannelDecoder`, not under `src/`) stores no parsed data and is
omitted. -/
def loadHeader (s : List Nat) (h : Hca) : Option Hca :=
  match readU32 s with
  | none => none
  | some (sig, s1) =>
    if sig &&& sigMask ≠ sigHCA then none
    else
      match hcaHeaderRead s1 h with
      | none => none
      | some (h1, s2) =>
        match readU32 s2 with
        | none => none
        | some (sig2, s3) =>
          if sig2 &&& sigMask ≠ sigFMT then none
          else
            match fmtHeaderRead s3 h1 with
            | none => none
            | some (h2, s4) =>
              match readU32 s4 with
              | none => none
              | some (sig3, s5) =>
                match
                  (if sig3 &&& sigMask = sigCOMP then
                    match compHeaderRead s5 h2 with
                    | none => none
                    | some (h3, s6) =>
                      match readU32 s6 with
                      | none => none
                      | some (sig4, s7) => some (sig4, s7, h3)
                  else if sig3 &&& sigMask = sigDEC then
                    match decHeaderRead s5 h2 with
                    | none => none
                    | some (h3, s6) =>
                      match readU32 s6 with
                      | none => none
                      | some (sig4, s7) => some (sig4, s7, h3)
                  else none) with
                | none => none
                | some (sig4, s7, h3) =>
                  match vbrPhase sig4 s7 h3 with
                  | none => none
                  | some (sig5, s8, h4) =>
                    match athPhase sig5 s8 h4 with
                    | none => none
                    | some (sig6, s9, h5) =>
                      match loopPhase sig6 s9 h5 with
                      | none => none
                      | some (sig7, s10, h6) =>
                        match ciphPhase sig7 s10 h6 with
                        | none => none
                        | some (sig8, s11, h7) =>
                          match rvaPhase sig8 s11 h7 with
                          | none => none
                          | some (sig9, s12, h8) =>
                            match commPhase sig9 s12 h8 with
                            | none => none
                            | some h9 =>
                              if ¬ athInitOk h9.athType then none
                              else if ¬ ciphInitOk h9.ciphType then none
                              else some (finalizeComp h9)

/-! ### WAVE header construction and the frame loop

Embedding of `buildWaveHeader` and `decodeBuffer` from `part_002` lines
95-220 (`part_003` lines 76-211 is textually identical for these
functions), the operative boolean core reached from `decoder.go` and
`example/main.go`. -/

/-- The WAVE header fields populated by `buildWaveHeader`
(`stWaveHeader`/`stWAVEriff`/`stWAVEsmpl`/`stWAVEnote`/`stWAVEdata` from
`wave_gen.go`, integer fields only; `smpl.samplePeriod` is a float32
computation and is outside the integer model).  `RiffOk`/`DataOk` start
`true` and `SmplOk`/`NoteOk` start `false` in `newWaveHeader`. -/
structure WaveHeaderOut where
  fmtType : Nat := 0
  fmtBitCount : Nat := 0
  fmtChannelCount : Nat := 0
  fmtSamplingRate : Nat := 0
  fmtSamplesPerSec : Nat := 0
  fmtSamplingSize : Nat := 0
  riffSize : Nat := 0
  smplLoopStart : Nat := 0
  smplLoopEnd : Nat := 0
  smplLoopPlayCount : Nat := 0
  noteSize : Nat := 0
  dataSize : Nat := 0
  RiffOk : Bool := true
  SmplOk : Bool := false
  NoteOk : Bool := false
  DataOk : Bool := true
deriving DecidableEq, Repr

/-- `buildWaveHeader` from `part_002` lines 149-204: fmt descriptor, the
`loopFlg` / `Loop != 0` smpl-field branches (the latter also overwrites
`h.loopStart`/`h.loopEnd` in place), the note chunk, `dataSize`, and
`riffSize` with its smpl/note increments.  All multiplications and
additions are `uint32`/`uint16` operations; chained operations are wrapped
in a single outer reduction, which agrees with per-operation reduction.
Returns the header together with the (possibly mutated) state. -/
def buildWaveHeader (h : Hca) : WaveHeaderOut × Hca :=
  let fmtType : Nat := if 0 < h.Mode then 1 else 3
  let bitCount : Nat := if 0 < h.Mode then u16ofInt h.Mode else 32
  let chCount : Nat := u16 h.channelCount
  let ss : Nat := u16 (bitCount / 8 * chCount)
  let sps : Nat := u32 (h.samplingRate * ss)
  let smplLS : Nat := if h.loopFlg then u32 (h.loopStart * 0x80 * 8 * ss) else 0
  let smplLE : Nat :=
    if h.loopFlg then u32 (h.loopEnd * 0x80 * 8 * ss)
    else if h.Loop ≠ 0 then u32 (h.blockCount * 0x80 * 8 * ss) else 0
  let smplPC : Nat := if h.loopFlg then (if h.loopR01 = 0x80 then 0 else h.loopR01) else 0
  let h1 : Hca :=
    if ¬ h.loopFlg ∧ h.Loop ≠ 0 then { h with loopStart := 0, loopEnd := h.blockCount } else h
  let noteOk : Bool := 0 < h.commLen
  let noteSize : Nat :=
    if 0 < h.commLen then
      let n0 := u32 (4 + h.commLen + 1)
      if n0 &&& 3 ≠ 0 then u32 (n0 + (4 - (n0 &&& 3))) else n0
    else 0
  let dataSize : Nat := u32 (h.blockCount * 0x80 * 8 * ss + u32sub smplLE smplLS * u32ofInt h.Loop)
  let smplOk : Bool := h.loopFlg ∧ h.Loop = 0
  let riffSize : Nat :=
    u32 (0x1C + 8 + dataSize + (if smplOk then 17 * 4 else 0) +
         (if noteOk then 8 + noteSize else 0))
  ({ fmtType := fmtType, fmtBitCount := bitCount, fmtChannelCount := chCount,
     fmtSamplingRate := u32 h.samplingRate, fmtSamplesPerSec := sps,
     fmtSamplingSize := ss, riffSize := riffSize,
     smplLoopStart := smplLS, smplLoopEnd := smplLE, smplLoopPlayCount := smplPC,
     noteSize := noteSize, dataSize := dataSize,
     SmplOk := smplOk, NoteOk := noteOk }, h1)

/-- The four chunk kinds a `stWaveHeader` can emit. -/
inductive WaveChunkTag where
  | riff
  | smpl
  | note
  | data
deriving DecidableEq, Repr

/-- `stWaveHeader.Write` from `wave_gen.go` lines 36-49, as the sequence of
chunks emitted: `Riff`, then `Smpl`, `Note`, `Data`, each guarded by its
`Ok` flag (`NeoWrite` has the same structure). -/
def writeOrder (wv : WaveHeaderOut) : List WaveChunkTag :=
  (if wv.RiffOk then [WaveChunkTag.riff] else []) ++
  (if wv.SmplOk then [WaveChunkTag.smpl] else []) ++
  (if wv.NoteOk then [WaveChunkTag.note] else []) ++
  (if wv.DataOk then [WaveChunkTag.data] else [])

/-- The sequence of `decodeBlocks(r, w, address, count)` calls issued by the
frame loop of `decodeBuffer` (`part_002` lines 125-143): when `Loop == 0` a
single pass over all blocks, otherwise `[0, loopEnd)` from the data offset,
`Loop - 1` repetitions of the loop region, and the tail from `loopStart` to
the end.  `loopBlockOffset` and the block counts are the source's `uint32`
expressions. -/
def decodeBufferCalls (h : Hca) : List (Nat × Nat) :=
  if h.Loop = 0 then [(h.dataOffset, h.blockCount)]
  else
    let loopBlockOffset := u32 (h.dataOffset + h.loopStart * h.blockSize)
    let loopBlockCount := u32sub h.loopEnd h.loopStart
    [(h.dataOffset, h.loopEnd)] ++
    List.replicate (h.Loop - 1).toNat (loopBlockOffset, loopBlockCount) ++
    [(loopBlockOffset, u32sub h.blockCount h.loopStart)]

/-- The frame-loop plan of `decodeBuffer`: `buildWaveHeader` runs (and in
the forced-loop-without-loop-chunk case mutates `loopStart`/`loopEnd`)
before the block loop reads them. -/
def decodeBufferPlan (h : Hca) : List (Nat × Nat) :=
  decodeBufferCalls (buildWaveHeader h).2

/-- Total number of blocks decoded by the plan: each
`decodeFromBytesDecode(r, w, address, count)` call decodes `count` blocks. -/
def totalBlocksDecoded (h : Hca) : Nat :=
  ((decodeBufferPlan h).map Prod.snd).sum

/-- Total bytes read from the frame region: each call performs `count`
reads of `blockSize` bytes (`r.ReadBytes(int(h.blockSize))`). -/
def totalBytesRead (h : Hca) : Nat :=
  ((decodeBufferPlan h).map (fun c => c.2 * h.blockSize)).sum

/-! ### Sample conversion

The operative converters from `part_003` lines 277-315 (identical in
`part_002`), called from `save`/`neoSave`.  float32 samples are modelled as
rationals; at the concrete inputs evaluated below every float32 operation
involved is exact, so the rational model agrees with the float32
computation.  The model covers the inputs for which Go's float-to-int
conversion is defined (product magnitude below `2^63`). -/

/-- Go float-to-int conversion: truncation toward zero
(`num.tdiv den` is the integer part of the reduced fraction). -/
def goTrunc (q : ℚ) : Int := q.num.tdiv q.den

/-- Go conversion to `int8`: two's-complement truncation to 8 bits. -/
def toInt8 (n : Int) : Int := (n + 128) % 256 - 128

/-- `mode8BitConvert` from `part_003` lines 277-283:
`res[i] = int8(int(base[i]*0x7F) + 0x80)` — no clipping; the value is
narrowed to `int8` by two's-complement truncation. -/
def mode8BitConvert (base : List ℚ) : List Int :=
  base.map (fun x => toInt8 (goTrunc (x * 0x7F) + 0x80))

/-- `mode8BitConvert` from the rewritten core (`part_001` lines 278-290,
there also named `mode8BitConvert` but with a destination-buffer
signature): `val = int(src[i]*127) + 128` clamped into `[0, 255]` and
stored as `uint8`. -/
def mode8BitConvertClip (base : List ℚ) : List Int :=
  base.map (fun x =>
    let val := goTrunc (x * 127) + 128
    if 255 < val then 255 else if val < 0 then 0 else val)

/-! ### Concrete states and streams used in witnesses and counterexamples -/

/-- The stream parameters of the spec's regression scenario 3: stereo,
22050 Hz, 20 blocks, loop `[4, 12)`, 16-bit mode, forced loop count 3. -/
def hEx1 : Hca := { NewDecoder with
  Mode := 16, Loop := 3, dataOffset := 96, blockSize := 16,
  channelCount := 2, samplingRate := 22050, blockCount := 20,
  loopStart := 4, loopEnd := 12, loopR01 := 0x80, loopFlg := true }

/-- A stream with no `loop` chunk and a forced loop count of 2. -/
def hEx10 : Hca := { NewDecoder with
  Mode := 16, Loop := 2, dataOffset := 96, blockSize := 16,
  channelCount := 1, samplingRate := 44100, blockCount := 5 }

/-- A parsed state with `compR08 = 0` and `(compR01, compR02) ≠ (1, 15)`. -/
def hEx9 : Hca := { NewDecoder with compR05 := 10, compR06 := 4, compR07 := 6 }

/-- An all-zero 8-byte frame: its CRC with seed 0 is 0 and its first
16 bits are `0x0000`, not the sync word. -/
def zeroFrame : List Nat := List.replicate 8 0

/-- A complete HCA header byte stream with `HCA` (version `0x0101`),
`fmt` (mono, 44100 Hz, 10 blocks), `dec` (blockSize 16, payload
`[1, 15, 3, 4, 0x21, 1]`) and no optional chunks (four trailing
non-signature bytes so the mandatory signature read after `dec`
succeeds). -/
def noAthStream : List Nat :=
  [0x48, 0x43, 0x41, 0x00, 0x01, 0x01, 0x00, 0x60,
   0x66, 0x6D, 0x74, 0x00, 0x01, 0x00, 0xAC, 0x44,
   0x00, 0x00, 0x00, 0x0A, 0x00, 0x00, 0x00, 0x00,
   0x64, 0x65, 0x63, 0x00, 0x00, 0x10, 0x01, 0x0F, 0x03, 0x04, 0x21, 0x01,
   0x00, 0x00, 0x00, 0x00]

/-- The state produced by `decHeaderRead` on the stream
`[0, 8, 1, 2, 3, 4, 0x25, 1]` (blockSize 8, payload `[1, 2, 3, 4, 0x25, 1]`). -/
def h7x : Hca := { NewDecoder with
  blockSize := 8, compR01 := 1, compR02 := 2, compR03 := 5, compR04 := 2,
  compR05 := 4, compR06 := 5, compR07 := u32sub 4 5, compR08 := 0 }

/-! ### Arithmetic helper lemmas -/

theorem u32_eq_of_lt {a : Nat} (ha : a < U32) : u32 a = a :=
  Nat.mod_eq_of_lt ha

theorem u32sub_eq_of_le {a b : Nat} (hba : b ≤ a) (ha : a < U32) :
    u32sub a b = a - b := by
  simp only [u32sub, u32, U32] at *
  omega

theorem u32ofInt_natCast {L : Nat} (hL : L < U32) : u32ofInt (L : Int) = L := by
  simp only [u32ofInt, U32] at *
  omega

theorem toNat_sub_one_natCast (L : Nat) : ((L : Int) - 1).toNat = L - 1 := by
  omega

theorem sum_map_snd_mul (l : List (Nat × Nat)) (bs : Nat) :
    (l.map (fun c => c.2 * bs)).sum = (l.map Prod.snd).sum * bs := by
  induction l with
  | nil => simp
  | cons x xs ih => simp [ih, Nat.add_mul]

theorem u32sub_u32_u32 (a b : Nat) : u32sub (u32 a) (u32 b) = u32sub a b := by
  simp only [u32sub, u32, U32]
  omega

theorem replicate_sandwich (n : Nat) (x : Nat × Nat) :
    [x] ++ List.replicate n x ++ [x] = List.replicate (n + 2) x := by
  have h1 : [x] = List.replicate 1 x := rfl
  rw [h1, ← List.replicate_add, ← List.replicate_add]
  congr 1
  omega

theorem buildWaveHeader_keeps_state_of_loopFlg (h : Hca) (hflg : h.loopFlg = true) :
    (buildWaveHeader h).2 = h := by
  simp [buildWaveHeader, hflg]

theorem writeOrder_smpl_mem (wv : WaveHeaderOut) :
    WaveChunkTag.smpl ∈ writeOrder wv ↔ wv.SmplOk = true := by
  cases hR : wv.RiffOk <;> cases hS : wv.SmplOk <;> cases hN : wv.NoteOk <;>
    cases hD : wv.DataOk <;> simp [writeOrder, hR, hS, hN, hD]

set_option maxRecDepth 8192 in
theorem buildWaveHeader_SmplOk (h : Hca) :
    (buildWaveHeader h).1.SmplOk = decide (h.loopFlg = true ∧ h.Loop = 0) := rfl

/-! ### Claim C1 -/

/-- Claim C1, counterexample.  At the spec's scenario-3 stream (20 blocks,
loop `[4, 12)`, forced loop 3, blockSize 16) the frame loop decodes 44
blocks and reads 704 frame-region bytes, not the
`blockCount + (loopEnd - loopStart) * (L - 1) = 36` blocks
(= 576 bytes) the claim asserts. -/
theorem C1_forced_loop_totals_cex :
    totalBlocksDecoded hEx1 = 44 ∧
    ¬ totalBlocksDecoded hEx1 =
        hEx1.blockCount + (hEx1.loopEnd - hEx1.loopStart) * (3 - 1) ∧
    totalBytesRead hEx1 = 704 ∧
    ¬ totalBytesRead hEx1 =
        hEx1.blockSize * (hEx1.blockCount + (hEx1.loopEnd - hEx1.loopStart) * (3 - 1)) := by
  decide

/-- Claim C1, amended.  For a parsed stream with a loop chunk and a forced
loop count `L ≥ 1`, the frame loop of `decodeBuffer` issues exactly the
calls `[0, loopEnd)`, then `L - 1` repetitions of `[loopStart, loopEnd)`,
then the tail `[loopStart, blockCount)` (addresses in bytes, counts in
blocks), so it decodes `blockCount + (loopEnd - loopStart) * L` blocks in
total — `L`, not `L - 1` — and reads
`blockSize * (blockCount + (loopEnd - loopStart) * L)` bytes from the
frame region. -/
theorem C1_forced_loop_totals (h : Hca) (L : Nat)
    (hflg : h.loopFlg = true) (hLoop : h.Loop = (L : Int)) (hL : 1 ≤ L)
    (hse : h.loopStart ≤ h.loopEnd) (heb : h.loopEnd ≤ h.blockCount)
    (hbc : h.blockCount < U32) :
    decodeBufferPlan h =
      [(h.dataOffset, h.loopEnd)] ++
      List.replicate (L - 1)
        (u32 (h.dataOffset + h.loopStart * h.blockSize), h.loopEnd - h.loopStart) ++
      [(u32 (h.dataOffset + h.loopStart * h.blockSize), h.blockCount - h.loopStart)] ∧
    totalBlocksDecoded h = h.blockCount + (h.loopEnd - h.loopStart) * L ∧
    totalBytesRead h = h.blockSize * (h.blockCount + (h.loopEnd - h.loopStart) * L) := by
  have hne : h.Loop ≠ 0 := by
    rw [hLoop]
    exact_mod_cast Nat.one_le_iff_ne_zero.mp hL
  have hplan : decodeBufferPlan h =
      [(h.dataOffset, h.loopEnd)] ++
      List.replicate (L - 1)
        (u32 (h.dataOffset + h.loopStart * h.blockSize), h.loopEnd - h.loopStart) ++
      [(u32 (h.dataOffset + h.loopStart * h.blockSize), h.blockCount - h.loopStart)] := by
    unfold decodeBufferPlan
    rw [buildWaveHeader_keeps_state_of_loopFlg h hflg]
    unfold decodeBufferCalls
    rw [if_neg hne, hLoop, toNat_sub_one_natCast,
        u32sub_eq_of_le hse (Nat.lt_of_le_of_lt heb hbc),
        u32sub_eq_of_le (Nat.le_trans hse heb) hbc]
  have hblocks : totalBlocksDecoded h = h.blockCount + (h.loopEnd - h.loopStart) * L := by
    unfold totalBlocksDecoded
    rw [hplan]
    simp [List.sum_replicate, smul_eq_mul]
    obtain ⟨L', rfl⟩ : ∃ L', L = 1 + L' := ⟨L - 1, by omega⟩
    simp only [Nat.add_sub_cancel_left, Nat.mul_add, Nat.mul_one]
    rw [Nat.mul_comm L' (h.loopEnd - h.loopStart)]
    generalize (h.loopEnd - h.loopStart) * L' = t
    omega
  refine ⟨hplan, hblocks, ?_⟩
  unfold totalBytesRead
  rw [sum_map_snd_mul]
  have hsum : (List.map Prod.snd (decodeBufferPlan h)).sum = totalBlocksDecoded h := rfl
  rw [hsum, hblocks, Nat.mul_comm]

/-- Witness for C1: the amended totals evaluated at the scenario-3
stream. -/
theorem C1_forced_loop_totals_witness :
    totalBlocksDecoded hEx1 = hEx1.blockCount + (hEx1.loopEnd - hEx1.loopStart) * 3 :=
  (C1_forced_loop_totals hEx1 3 rfl rfl (by decide) (by decide) (by decide)
    (by decide)).2.1

/-! ### Claim C2 -/

/-- Claim C2, counterexample.  The all-zero 8-byte frame passes the CRC
check (checksum 0), its first 16 cipher-masked bits are `0x0000`, not the
sync word `0xFFFF`, and yet `decode` returns success (`ok = true`), merely
skipping the channel pipeline — the frame does not fail and the block loop
continues. -/
theorem C2_sync_mismatch_cex :
    decode 8 (fun b => b) zeroFrame = ⟨true, false⟩ ∧
    checkSum zeroFrame 0 = 0 ∧
    clDataGetBit16 ((zeroFrame.map (fun b => b)).take 8) ≠ 0xFFFF := by
  decide

/-- Claim C2, amended.  In the operative boolean `decode`, a frame that
passes the CRC check but whose first 16 cipher-masked bits differ from
`0xFFFF` is not an error: `decode` returns `true` (so the stream's block
loop continues with the next frame) and only the channel pipeline is
skipped for that frame. -/
theorem C2_sync_mismatch (bs : Nat) (tbl : Nat → Nat) (data : List Nat)
    (hlen : bs ≤ data.length) (hcrc : checkSum data 0 = 0)
    (hmagic : clDataGetBit16 ((data.map tbl).take bs) ≠ 0xFFFF) :
    decode bs tbl data = ⟨true, false⟩ := by
  unfold decode
  rw [if_neg (by omega), if_neg (by simp [hcrc])]
  simp [hmagic]

/-- Witness for C2: the amended behaviour at the all-zero frame. -/
theorem C2_sync_mismatch_witness :
    decode 8 (fun b => b) zeroFrame = ⟨true, false⟩ :=
  C2_sync_mismatch 8 (fun b => b) zeroFrame (by decide) (by decide) (by decide)

/-! ### Claim C3 -/

/-- Claim C3 (code bug).  The operative `mode8BitConvert` does not clip:
at the sample `x = 2.0` (all float32 operations exact) it computes
`int8(int(2.0*127) + 128) = int8(382) = 126` by two's-complement
wraparound, where the spec's formula `clip(round(x*127)+128, 0, 255)`
requires 255 — as the rewritten clipping converter (`part_001`) indeed
produces.  The conversion therefore wraps instead of saturating. -/
theorem C3_mode8_wraps :
    mode8BitConvert [2] = [126] ∧
    mode8BitConvertClip [2] = [255] ∧
    (126 : Int) ≠ 255 := by
  refine ⟨?_, ?_, by decide⟩
  · norm_num [mode8BitConvert, goTrunc, toInt8]
  · norm_num [mode8BitConvertClip, goTrunc]

/-! ### Claim C4 -/

/-- Claim C4, counterexample.  At the scenario-3 stream the operative
`buildWaveHeader` writes `dataSize = 180224 = 44 * 1024 * 4`, not the
claimed `(blockCount + (loopEnd - loopStart) * max(0, L-1)) * 1024 *
blockAlign = 36 * 1024 * 4 = 147456`. -/
theorem C4_dataSize_cex :
    (buildWaveHeader hEx1).1.dataSize = 180224 ∧
    ¬ (buildWaveHeader hEx1).1.dataSize =
        (hEx1.blockCount + (hEx1.loopEnd - hEx1.loopStart) * (3 - 1)) * 1024 *
          (buildWaveHeader hEx1).1.fmtSamplingSize := by
  decide

/-- Claim C4, amended.  For a parsed stream with a loop chunk and forced
loop count `L`, the `data` chunk size written by the operative
`buildWaveHeader` is
`(blockCount + (loopEnd - loopStart) * L) * 1024 * blockAlign` — the loop
region is counted `L` times, not `max(0, L-1)` times (hypotheses bound the
products below `2^32` so no `uint32` wraparound occurs). -/
theorem C4_dataSize (h : Hca) (L ss : Nat)
    (hss : ss = (buildWaveHeader h).1.fmtSamplingSize)
    (hflg : h.loopFlg = true) (hLoop : h.Loop = (L : Int)) (hLlt : L < U32)
    (hse : h.loopStart ≤ h.loopEnd)
    (hle : h.loopEnd * 1024 * ss < U32)
    (htot : h.blockCount * 1024 * ss + (h.loopEnd - h.loopStart) * 1024 * ss * L < U32) :
    (buildWaveHeader h).1.dataSize =
      (h.blockCount + (h.loopEnd - h.loopStart) * L) * 1024 * ss := by
  have hssv : ss = u16 ((if 0 < h.Mode then u16ofInt h.Mode else 32) / 8 * u16 h.channelCount) := by
    rw [hss]; rfl
  have hds : (buildWaveHeader h).1.dataSize =
      u32 (h.blockCount * 0x80 * 8 * ss +
        u32sub (u32 (h.loopEnd * 0x80 * 8 * ss)) (u32 (h.loopStart * 0x80 * 8 * ss)) *
          u32ofInt h.Loop) := by
    simp only [buildWaveHeader, hflg, Bool.true_eq_false, if_true, if_false]
    rw [hssv]
  have e1024 : ∀ n : Nat, n * 0x80 * 8 * ss = n * 1024 * ss := by
    intro n; ring
  rw [hds, e1024, e1024, e1024, u32sub_u32_u32,
      u32sub_eq_of_le (Nat.mul_le_mul_right ss (Nat.mul_le_mul_right 1024 hse)) hle,
      hLoop, u32ofInt_natCast hLlt]
  have hsub : h.loopEnd * 1024 * ss - h.loopStart * 1024 * ss =
      (h.loopEnd - h.loopStart) * 1024 * ss := by
    rw [Nat.sub_mul, Nat.sub_mul]
  rw [hsub, u32_eq_of_lt htot]
  ring

/-- Witness for C4: the amended `dataSize` formula evaluated at the
scenario-3 stream (`44 * 1024 * 4 = 180224`). -/
theorem C4_dataSize_witness :
    (buildWaveHeader hEx1).1.dataSize =
      (hEx1.blockCount + (hEx1.loopEnd - hEx1.loopStart) * 3) * 1024 *
        (buildWaveHeader hEx1).1.fmtSamplingSize :=
  C4_dataSize hEx1 3 (buildWaveHeader hEx1).1.fmtSamplingSize rfl rfl rfl
    (by decide) (by decide) (by decide) (by decide)

/-! ### Claim C5 -/

/-- Claim C5, confirmed.  The `smpl` chunk is present in the emitted WAVE
header exactly when the stream's loop flag is set and the caller's forced
loop count is 0; with a nonzero forced loop count no `smpl` chunk is
written. -/
theorem C5_smpl_iff (h : Hca) :
    WaveChunkTag.smpl ∈ writeOrder (buildWaveHeader h).1 ↔
      (h.loopFlg = true ∧ h.Loop = 0) := by
  rw [writeOrder_smpl_mem, buildWaveHeader_SmplOk, decide_eq_true_eq]

/-! ### Claim C6 -/

set_option maxRecDepth 8192 in
/-- Claim C6, confirmed.  The CRC table has 256 entries beginning
`0x0000, 0x8005, 0x800F, 0x000A` and ending `0x0202`; `checkSum` folds
`crc = (crc << 8) ^ table[(crc >> 8) ^ byte]` with seed 0 over the whole
buffer; a frame is decoded (the channel pipeline runs) only if that CRC is
zero, and a nonzero CRC makes `decode` fail (return `false`). -/
theorem C6_crc_gate :
    crcTable.length = 256 ∧
    crcTable.take 4 = [0x0000, 0x8005, 0x800F, 0x000A] ∧
    crcTable.getD 255 0 = 0x0202 ∧
    (∀ (bs : Nat) (tbl : Nat → Nat) (data : List Nat),
      checkSum data 0 ≠ 0 → (decode bs tbl data).ok = false) ∧
    (∀ (bs : Nat) (tbl : Nat → Nat) (data : List Nat),
      (decode bs tbl data).pipelineRun = true → checkSum data 0 = 0) := by
  refine ⟨by decide, by decide, by decide, ?_, ?_⟩
  · intro bs tbl data hcrc
    simp [decode, hcrc]
  · intro bs tbl data hrun
    by_contra hcrc
    simp [decode, hcrc] at hrun

/-- Witness for C6: the one-byte frame `[1]` has CRC `0x8005` with seed 0,
so `decode` rejects it. -/
theorem C6_crc_gate_witness : (decode 1 (fun b => b) [1]).ok = false :=
  C6_crc_gate.2.2.2.1 1 (fun b => b) [1] (by decide)

/-! ### Claim C7 -/

/-- Claim C7, counterexample.  On the `dec` payload `b = [0,0,0,0,0,0]`
(blockSize 8) the parse succeeds with `r3 = 1`, while the claim's formula
`r3 = b[4] & 0xF` gives 0: the source defaults a zero `r3` to 1 inside
`decHeaderRead`. -/
theorem C7_dec_params_cex :
    (decHeaderRead [0, 8, 0, 0, 0, 0, 0, 0] NewDecoder).map (fun p => p.1.compR03) =
      some 1 ∧
    (0 &&& 0xF : Nat) = 0 ∧ (1 : Nat) ≠ 0 := by
  decide

/-- Claim C7, amended.  A successful `dec`-chunk parse with payload bytes
`b[0..5]` yields `r1 = b[0]`, `r2 = b[1]`,
`r3 = b[4] & 0xF` defaulted to 1 when that nibble is zero, `r4 = b[4] >> 4`,
`r5 = b[2]+1`, `r6 = b[3]+1` if `b[5] > 0` else `b[2]+1`,
`r7 = r5 - r6` as `uint32` wraparound subtraction, and `r8 = 0`. -/
theorem C7_dec_params (x0 x1 b0 b1 b2 b3 b4 b5 : Nat) (rest : List Nat)
    (h h' : Hca) (rest' : List Nat)
    (hparse : decHeaderRead (x0 :: x1 :: b0 :: b1 :: b2 :: b3 :: b4 :: b5 :: rest) h
                = some (h', rest')) :
    h'.compR01 = b0 ∧ h'.compR02 = b1 ∧
    h'.compR03 = (if b4 &&& 0xF = 0 then 1 else b4 &&& 0xF) ∧
    h'.compR04 = b4 >>> 4 ∧
    h'.compR05 = b2 + 1 ∧
    h'.compR06 = (if 0 < b5 then b3 + 1 else b2 + 1) ∧
    h'.compR07 = u32sub h'.compR05 h'.compR06 ∧
    h'.compR08 = 0 := by
  unfold decHeaderRead at hparse
  simp only [readU16, readBytes, List.length_cons] at hparse
  rw [if_neg (by omega)] at hparse
  simp only [List.take, List.drop, List.getD_cons_zero, List.getD_cons_succ] at hparse
  split at hparse
  · exact Option.noConfusion hparse
  split at hparse
  · exact Option.noConfusion hparse
  simp only [Option.some.injEq, Prod.mk.injEq] at hparse
  obtain ⟨heq, -⟩ := hparse
  subst heq
  exact ⟨rfl, rfl, rfl, rfl, rfl, rfl, rfl, rfl⟩

/-- Witness for C7: the amended field equations at the concrete payload
`[1, 2, 3, 4, 0x25, 1]` with blockSize 8. -/
theorem C7_dec_params_witness :
    h7x.compR01 = 1 ∧ h7x.compR02 = 2 ∧
    h7x.compR03 = (if 0x25 &&& 0xF = 0 then 1 else 0x25 &&& 0xF) ∧
    h7x.compR04 = 0x25 >>> 4 ∧
    h7x.compR05 = 3 + 1 ∧
    h7x.compR06 = (if 0 < 1 then 4 + 1 else 3 + 1) ∧
    h7x.compR07 = u32sub h7x.compR05 h7x.compR06 ∧
    h7x.compR08 = 0 :=
  C7_dec_params 0 8 1 2 3 4 0x25 1 [] NewDecoder h7x [] (by decide)

/-! ### Claim C8 -/

/-- Claim C8, confirmed.  When the signature read at the `ath` position
does not match the `ath` chunk, the parse does not fail at that stage: it
keeps the signature and stream unchanged and defaults the ATH type to 0
for `version >= 0x200` and to 1 otherwise. -/
theorem C8_ath_default (sig : Nat) (s : List Nat) (h : Hca)
    (hne : sig &&& sigMask ≠ sigATH) :
    athPhase sig s h =
      some (sig, s, { h with athType := if 0x200 ≤ h.version then 0 else 1 }) := by
  simp [athPhase, hne]

/-- Witness for C8: the default at a non-`ath` signature, together with an
end-to-end `loadHeader` run on a complete header without an `ath` chunk
(version `0x0101 < 0x200`), which succeeds with ATH type 1. -/
theorem C8_ath_default_witness :
    athPhase sigLOOP [] NewDecoder =
      some (sigLOOP, [],
        { NewDecoder with athType := if 0x200 ≤ NewDecoder.version then 0 else 1 }) ∧
    (loadHeader noAthStream NewDecoder).map Hca.athType = some 1 :=
  ⟨C8_ath_default sigLOOP [] NewDecoder (by decide), by decide⟩

/-! ### Claim C9 -/

/-- Claim C9, confirmed.  `ceil2` returns 0 whenever its divisor is 0, a
`dec`-chunk parse always sets `r8 = 0`, and for any state with `r8 = 0`
and not (`r1 = 1` and `r2 = 15`) the header finalisation computes
`compR09 = ceil2(..., 0) = 0` — total, with no division by zero. -/
theorem C9_ceil2_total :
    (∀ a : Nat, ceil2 a 0 = 0) ∧
    (∀ (s : List Nat) (h h' : Hca) (rest : List Nat),
      decHeaderRead s h = some (h', rest) → h'.compR08 = 0) ∧
    (∀ h : Hca, h.compR08 = 0 → ¬(h.compR01 = 1 ∧ h.compR02 = 15) →
      (finalizeComp h).compR09 = 0) := by
  refine ⟨fun a => by simp [ceil2], ?_, ?_⟩
  · intro s h h' rest hparse
    unfold decHeaderRead at hparse
    simp only [] at hparse
    repeat' split at hparse
    all_goals first
      | exact Option.noConfusion hparse
      | (simp only [Option.some.injEq, Prod.mk.injEq] at hparse
         obtain ⟨heq, -⟩ := hparse
         subst heq
         rfl)
  · intro h h8 hne
    unfold finalizeComp
    by_cases h3 : h.compR03 = 0 <;> simp [h3, hne, ceil2, h8]

/-- Witness for C9: `ceil2 5 0 = 0`, and the finalisation of a state with
`r8 = 0`, `r1 = 0`, `r2 = 0` sets `compR09 = 0`. -/
theorem C9_ceil2_total_witness :
    ceil2 5 0 = 0 ∧ (finalizeComp hEx9).compR09 = 0 :=
  ⟨C9_ceil2_total.1 5, C9_ceil2_total.2.2 hEx9 rfl (by decide)⟩

/-! ### Claim C10 -/

/-- Claim C10, confirmed.  For a parsed stream without a `loop` chunk and a
forced loop count `L ≥ 1`, `buildWaveHeader` overwrites `loopStart` with 0
and `loopEnd` with `blockCount` before the frame loop runs, so the
forced-loop schedule becomes `L + 1` passes over the entire stream instead
of failing or ignoring the request. -/
theorem C10_forced_loop_whole_stream (h : Hca) (L : Nat)
    (hflg : h.loopFlg = false) (hLoop : h.Loop = (L : Int)) (hL : 1 ≤ L)
    (hd : h.dataOffset < U32) (hbc : h.blockCount < U32) :
    (buildWaveHeader h).2.loopStart = 0 ∧
    (buildWaveHeader h).2.loopEnd = h.blockCount ∧
    decodeBufferPlan h = List.replicate (L + 1) (h.dataOffset, h.blockCount) := by
  have hne : h.Loop ≠ 0 := by
    rw [hLoop]
    exact_mod_cast Nat.one_le_iff_ne_zero.mp hL
  have hmut : (buildWaveHeader h).2 =
      { h with loopStart := 0, loopEnd := h.blockCount } := by
    simp [buildWaveHeader, hflg, hne]
  refine ⟨by rw [hmut], by rw [hmut], ?_⟩
  unfold decodeBufferPlan
  rw [hmut]
  unfold decodeBufferCalls
  rw [if_neg hne]
  simp only [Nat.zero_mul, Nat.add_zero, hLoop, toNat_sub_one_natCast,
    u32_eq_of_lt hd]
  rw [u32sub_eq_of_le (Nat.zero_le _) hbc, Nat.sub_zero, replicate_sandwich]
  congr 1
  omega

/-- Witness for C10: a 5-block stream without a loop chunk and forced loop
count 2 is decoded as three full passes. -/
theorem C10_forced_loop_whole_stream_witness :
    (buildWaveHeader hEx10).2.loopStart = 0 ∧
    (buildWaveHeader hEx10).2.loopEnd = hEx10.blockCount ∧
    decodeBufferPlan hEx10 = List.replicate (2 + 1) (hEx10.dataOffset, hEx10.blockCount) :=
  C10_forced_loop_whole_stream hEx10 2 rfl rfl (by decide) (by decide) (by decide)

end HcaSpec
